import Mathlib

/-!
Verification development for the svgicon / svgraster SVG icon library.

The definitions below are a shallow embedding of the Go sources:
  * svgicon/path.go      : path operations, textual serialization, the
                           Path-as-Drawer accumulator;
  * svgicon/svgicon.go   : the streaming parser loop (ReadIconStream) and
                           the file entry point (ReadIcon);
  * svgraster (wrapper around rasterx) : SetupDrawers, toRasterxGradient,
                           setColorFromPattern.

Fixed-point 26.6 coordinates are embedded as integers (the raw 64ths);
float64 quantities of the raster backend are embedded as rationals, on
which the divisions and subtractions performed by the code are exact.
Parts of the repository that are referenced by the sources but whose own
code is not available (the style push, the start-element dispatch, the
affine transform helpers) are modelled from the specification; each such
definition says so in its doc comment.
-/

namespace Oksvg

/-- Embedding of fixed.Point26_6: a pair of 26.6 fixed-point coordinates,
kept as the raw integer count of 64ths. -/
structure Point26_6 where
  X : Int
  Y : Int
deriving DecidableEq, Repr

/-- Embedding of fixed.Rectangle26_6: the extent rectangle returned by the
scanner, with fixed-point corners. -/
structure Rectangle26_6 where
  Min : Point26_6
  Max : Point26_6
deriving DecidableEq, Repr

/-- Embedding of the closed set of path operations of svgicon/path.go
(OpMoveTo, OpLineTo, OpQuadTo, OpCubicTo, OpClose): the Operation
interface has exactly these five implementations. -/
inductive Operation where
  | OpMoveTo (p : Point26_6)
  | OpLineTo (p : Point26_6)
  | OpQuadTo (p1 p2 : Point26_6)
  | OpCubicTo (p1 p2 p3 : Point26_6)
  | OpClose
deriving DecidableEq, Repr

/-- Embedding of type Path []Operation. -/
abbrev Path := List Operation

/-- Left-pad a fractional part to three digits, as the %.3f verb does. -/
def pad3 (n : Nat) : String :=
  if n < 10 then "00" ++ toString n
  else if n < 100 then "0" ++ toString n
  else toString n

/-- Round n/8 to the nearest integer, ties to even: this is the rounding
strconv applies when printing an exactly-representable binary value with
three fractional digits (x/64 in thousandths is 125*x/8). -/
def roundHalfEven8 (n : Int) : Int :=
  let q0 := Int.fdiv n 8
  let r := n - 8 * q0
  if r < 4 then q0
  else if 4 < r then q0 + 1
  else if Int.emod q0 2 = 0 then q0 else q0 + 1

/-- Embedding of fmt.Sprintf("%4.3f", float32(x)/64) for a 26.6 fixed-point
coordinate x: the decimal value of x/64 printed with exactly three
fractional digits (the minimum width 4 never pads, since "0.000" already
has five characters; the conversion to float32 and the division by 64 are
exact for all coordinates of magnitude below 2^25). -/
def fmtF (x : Int) : String :=
  let q := roundHalfEven8 (125 * x)
  let sign := if q < 0 then "-" else ""
  let a := q.natAbs
  sign ++ toString (a / 1000) ++ "." ++ pad3 (a % 1000)

/-- Embedding of the per-operation chunk built by the switch inside
Path.ToSVGPath. Note the OpCubicTo case: the source computes
"C" + fmt.Sprintf("C%4.3f,...", ...), so the letter C is emitted twice. -/
def opChunk : Operation → String
  | .OpMoveTo p => "M" ++ fmtF p.X ++ "," ++ fmtF p.Y
  | .OpLineTo p => "L" ++ fmtF p.X ++ "," ++ fmtF p.Y
  | .OpQuadTo p1 p2 =>
      "Q" ++ fmtF p1.X ++ "," ++ fmtF p1.Y ++ "," ++ fmtF p2.X ++ "," ++ fmtF p2.Y
  | .OpCubicTo p1 p2 p3 =>
      "C" ++ ("C" ++ fmtF p1.X ++ "," ++ fmtF p1.Y ++ "," ++ fmtF p2.X ++ "," ++ fmtF p2.Y
        ++ "," ++ fmtF p3.X ++ "," ++ fmtF p3.Y)
  | .OpClose => "Z"

/-- Embedding of Path.ToSVGPath: one chunk per operation, joined by single
spaces. -/
def Path.ToSVGPath (p : Path) : String :=
  String.intercalate " " (p.map opChunk)

/-- Embedding of Path.Clear: *p = (*p)[:0]. -/
def Path.Clear (_p : Path) : Path := []

/-- Embedding of Path.Start: append OpMoveTo{a.X, a.Y}. -/
def Path.Start (p : Path) (a : Point26_6) : Path :=
  p ++ [Operation.OpMoveTo a]

/-- Embedding of Path.Line: append OpLineTo{b.X, b.Y}. -/
def Path.Line (p : Path) (b : Point26_6) : Path :=
  p ++ [Operation.OpLineTo b]

/-- Embedding of Path.QuadBezier: append OpQuadTo{b, c}. -/
def Path.QuadBezier (p : Path) (b c : Point26_6) : Path :=
  p ++ [Operation.OpQuadTo b c]

/-- Embedding of Path.CubeBezier: append OpCubicTo{b, c, d}. -/
def Path.CubeBezier (p : Path) (b c d : Point26_6) : Path :=
  p ++ [Operation.OpCubicTo b c d]

/-- Embedding of Path.Stop: append OpClose only when closeLoop is set. -/
def Path.Stop (p : Path) (closeLoop : Bool) : Path :=
  if closeLoop then p ++ [Operation.OpClose] else p

/-- Embedding of the affine transform type Matrix2D [a b c d e f], mapping
(x, y) to (a*x + c*y + e, b*x + d*y + f); entries are float64 in the
source, embedded as rationals. -/
structure Matrix2D where
  A : ℚ
  B : ℚ
  C : ℚ
  D : ℚ
  E : ℚ
  F : ℚ
deriving DecidableEq, Repr

/-- The identity transform, the document-root default. -/
def Identity : Matrix2D := ⟨1, 0, 0, 1, 0, 0⟩

/-- Truncation of a rational toward zero, as Go's conversion from float64
back to a fixed-point integer does. -/
def ratTrunc (q : ℚ) : Int :=
  if q < 0 then -(Int.floor (-q)) else Int.floor q

/-- Modelled from the spec: Matrix2D.TFixed, the affine application of the
matrix to a 26.6 fixed-point point (translation scaled by 64 to stay in
fixed-point units), truncated back to fixed point. The concrete helper
lives outside the available sources; the spec gives the mapping
(x, y) to (a*x + c*y + e, b*x + d*y + f). -/
def Matrix2D.TFixed (m : Matrix2D) (p : Point26_6) : Point26_6 :=
  ⟨ratTrunc (m.A * (p.X : ℚ) + m.C * (p.Y : ℚ) + m.E * 64),
   ratTrunc (m.B * (p.X : ℚ) + m.D * (p.Y : ℚ) + m.F * 64)⟩

/-- Modelled from the spec: trMove transforms the operand of a MoveTo. -/
def Matrix2D.trMove (m : Matrix2D) (p : Point26_6) : Point26_6 := m.TFixed p

/-- Modelled from the spec: trLine transforms the operand of a LineTo. -/
def Matrix2D.trLine (m : Matrix2D) (p : Point26_6) : Point26_6 := m.TFixed p

/-- Modelled from the spec: trQuad transforms both points of a QuadTo. -/
def Matrix2D.trQuad (m : Matrix2D) (p1 p2 : Point26_6) : Point26_6 × Point26_6 :=
  (m.TFixed p1, m.TFixed p2)

/-- Modelled from the spec: trCubic transforms the three points of a
CubicTo. -/
def Matrix2D.trCubic (m : Matrix2D) (p1 p2 p3 : Point26_6) :
    Point26_6 × Point26_6 × Point26_6 :=
  (m.TFixed p1, m.TFixed p2, m.TFixed p3)

/-- One call issued to a Drawer handle: the path-construction primitives of
the Drawer interface. -/
inductive DrawOp where
  | Start (p : Point26_6)
  | Line (p : Point26_6)
  | QuadBezier (b c : Point26_6)
  | CubeBezier (b c d : Point26_6)
  | Stop (closeLoop : Bool)
deriving DecidableEq, Repr

/-- Embedding of Operation.drawTo: the exact sequence of Drawer calls each
operation issues, after applying the transform M. OpMoveTo issues
d.Stop(false) (implicit close) then d.Start; OpClose issues d.Stop(true). -/
def Operation.drawTo (op : Operation) (M : Matrix2D) : List DrawOp :=
  match op with
  | .OpMoveTo p => [DrawOp.Stop false, DrawOp.Start (M.trMove p)]
  | .OpLineTo p => [DrawOp.Line (M.trLine p)]
  | .OpQuadTo p1 p2 => [DrawOp.QuadBezier (M.trQuad p1 p2).1 (M.trQuad p1 p2).2]
  | .OpCubicTo p1 p2 p3 =>
      [DrawOp.CubeBezier (M.trCubic p1 p2 p3).1 (M.trCubic p1 p2 p3).2.1
        (M.trCubic p1 p2 p3).2.2]
  | .OpClose => [DrawOp.Stop true]

/-! ## Style model and paint values -/

/-- Embedding of color.NRGBA, the concrete PlainColor payload. -/
structure PlainColor where
  R : Nat
  G : Nat
  B : Nat
  A : Nat
deriving DecidableEq, Repr

/-- Embedding of the gradient spread mode. -/
inductive SpreadMethod where
  | PadSpread
  | ReflectSpread
  | RepeatSpread
deriving DecidableEq, Repr

/-- Embedding of the gradient coordinate-space mode. -/
inductive GradientUnits where
  | ObjectBoundingBox
  | UserSpaceOnUse
deriving DecidableEq, Repr

/-- Embedding of a gradient color stop (offset, color, opacity); the
rasterx GradStop is a field-for-field cast of this record, so the two
share one embedding. -/
structure GradStop where
  Offset : ℚ
  StopColor : PlainColor
  Opacity : ℚ
deriving DecidableEq, Repr

/-- Embedding of the gradient direction: Linear is a 4-vector of float64,
Radial a 6-vector (cx, cy, fx, fy, r, fr). -/
inductive Direction where
  | Linear (d0 d1 d2 d3 : ℚ)
  | Radial (d0 d1 d2 d3 d4 d5 : ℚ)
deriving DecidableEq, Repr

/-- Embedding of the float64 bounds rectangle {X, Y, W, H}. -/
structure Rect where
  X : ℚ
  Y : ℚ
  W : ℚ
  H : ℚ
deriving DecidableEq, Repr

/-- Embedding of svgicon.Gradient: direction, stops, bounds, its own
transform, spread mode and coordinate-space mode. -/
structure Gradient where
  Direction : Direction
  Stops : List GradStop
  Bounds : Rect
  Matrix : Matrix2D
  Spread : SpreadMethod
  Units : GradientUnits
deriving DecidableEq, Repr

/-- Embedding of the svgicon.Pattern interface: its only implementations in
the repository are PlainColor and Gradient. -/
inductive Pattern where
  | plain (c : PlainColor)
  | gradient (g : Gradient)
deriving DecidableEq, Repr

/-! ## Parser model (svgicon.go) -/

/-- Embedding of svgicon.ErrorMode: how unhandled or malformed constructs
are treated for the whole parse. -/
inductive ErrorMode where
  | IgnoreErrorMode
  | WarnErrorMode
  | StrictErrorMode
deriving DecidableEq, Repr

/-- The error values the parse can surface: a non-EOF failure of the
underlying token stream, a malformed style value, an unrecognized element
(fatal only in strict mode), or an I/O failure opening the named file. -/
inductive Err where
  | tokenErr (msg : String)
  | styleErr (attr value : String)
  | unrecognizedElement (name : String)
  | ioErr (msg : String)
deriving DecidableEq, Repr

/-- Embedding of the xml tokens the loop dispatches on: start element
(local name plus attribute list), end element, character data. -/
inductive Token where
  | startElement (name : String) (attrs : List (String × String))
  | endElement (name : String)
  | charData (s : String)
deriving DecidableEq, Repr

/-- One outcome of decoder.Token(): a token, the io.EOF sentinel, or a
non-EOF stream error. The stream is embedded as the list of these
outcomes in the order the decoder yields them. -/
inductive TokenResult where
  | tok (t : Token)
  | eof
  | err (e : Err)
deriving DecidableEq, Repr

/-- Modelled from the spec: the cascading style record. The spec's push
operation clones the parent and overrides only the recognized attributes
present on the element; the resolved record is embedded as the accumulated
overlay of recognized attribute bindings (front entries shadow later
ones), which captures the clone-and-override discipline exactly. -/
structure PathStyle where
  resolved : List (String × String)
deriving DecidableEq, Repr

/-- The root default style frame. -/
def DefaultStyle : PathStyle := ⟨[]⟩

/-- Modelled from the spec: the fixed, enumerated set of recognized style
attributes; anything else on an element is ignored. -/
def recognizedStyleAttrs : List String :=
  ["fill", "stroke", "opacity", "fill-opacity", "stroke-opacity",
   "stroke-width", "stroke-linecap", "stroke-linejoin", "stroke-miterlimit",
   "stroke-dasharray", "stroke-dashoffset", "transform", "style", "display"]

/-- The recognized style attributes whose values must be numeric. -/
def numericStyleAttrs : List String :=
  ["opacity", "fill-opacity", "stroke-opacity", "stroke-width",
   "stroke-miterlimit", "stroke-dashoffset"]

/-- A decimal numeric literal: nonempty, only digits and at most one dot,
with at least one digit. -/
def decimalLit (s : String) : Bool :=
  let cs := s.toList
  cs.all (fun c => c.isDigit || c = '.') && cs.any Char.isDigit
    && (cs.filter (fun c => c = '.')).length ≤ 1

/-- Modelled from the spec: clone-and-override of a parent style frame by
the element's recognized attributes. -/
def PathStyle.overlay (parent : PathStyle) (attrs : List (String × String)) : PathStyle :=
  ⟨attrs.filter (fun a => recognizedStyleAttrs.contains a.1) ++ parent.resolved⟩

/-- The first malformed numeric style value among the attributes, if any. -/
def styleParseFailure (attrs : List (String × String)) : Option Err :=
  attrs.findSome? fun a =>
    if numericStyleAttrs.contains a.1 && !(decimalLit a.2) then
      some (Err.styleErr a.1 a.2)
    else none

/-- A deferred definition entry: the identifier and the element tag, as the
end-element handler of svgicon.go uses them (definition{Tag: "endg"},
currentDef[0].ID). -/
structure definition where
  ID : String
  Tag : String
deriving DecidableEq, Repr

/-- A display-list item: the source element, its attributes and the style
snapshot under which it was emitted (the path translation of the shape
elements decides none of the claims and is kept symbolic). -/
structure SVGPathItem where
  element : String
  attrs : List (String × String)
  Style : PathStyle
deriving DecidableEq, Repr

/-- Embedding of svgicon.SvgIcon: viewport, definitions mapping, gradient
mapping, root transform, metadata texts and the display list. The Go maps
are embedded as association lists written in insertion order. -/
structure SvgIcon where
  ViewBox : Rect
  defs : List (String × List definition)
  grads : List (String × Gradient)
  Transform : Matrix2D
  Titles : List String
  Descriptions : List String
  SVGPaths : List SVGPathItem
deriving DecidableEq, Repr

/-- Assignment m[k] = v on an association-list map: replace the binding in
place when the key is present, append otherwise. -/
def mapInsert {α : Type} (m : List (String × α)) (k : String) (v : α) :
    List (String × α) :=
  if m.any (fun p => p.1 = k) then
    m.map (fun p => if p.1 = k then (k, v) else p)
  else m ++ [(k, v)]

/-- Embedding of the iconCursor parser state: the style stack (top at the
back, as the Go slice), the icon under construction, the error mode and
the nested-context flags and accumulators. -/
structure iconCursor where
  styleStack : List PathStyle
  icon : SvgIcon
  errorMode : ErrorMode
  inDefs : Bool
  currentDef : List definition
  inGrad : Bool
  inTitleText : Bool
  inDescText : Bool
  currentGradId : String
deriving DecidableEq, Repr

/-- Modelled from the spec: pushStyle reads the recognized style attributes
of the start element and pushes exactly one style frame (the parent's top
frame overridden by those attributes) onto the style stack — every
start-tag pushes exactly one frame, regardless of whether the element is
recognized. A malformed numeric value yields a style error, fatal only in
strict mode. -/
def iconCursor.pushStyle (c : iconCursor) (attrs : List (String × String)) :
    iconCursor × Option Err :=
  let parent := c.styleStack.getLast?.getD DefaultStyle
  let c' := { c with styleStack := c.styleStack ++ [parent.overlay attrs] }
  match styleParseFailure attrs, c.errorMode with
  | some e, ErrorMode.StrictErrorMode => (c', some e)
  | _, _ => (c', none)

/-- The shape elements that are translated into paths. -/
def shapeElements : List String :=
  ["path", "rect", "circle", "ellipse", "line", "polyline", "polygon"]

/-- Value of an attribute, or the empty string when absent. -/
def lookupAttr (attrs : List (String × String)) (k : String) : String :=
  ((attrs.find? (fun a => a.1 = k)).map (fun a => a.2)).getD ""

/-- A fresh gradient record, registered when a gradient element opens. -/
def defaultGradient : Gradient :=
  ⟨Direction.Linear 0 0 1 0, [], ⟨0, 0, 1, 1⟩, Identity,
   SpreadMethod.PadSpread, GradientUnits.ObjectBoundingBox⟩

/-- Append a stop to the gradient currently being populated. -/
def appendStop (grads : List (String × Gradient)) (id : String) (s : GradStop) :
    List (String × Gradient) :=
  grads.map fun p =>
    if p.1 = id then (p.1, { p.2 with Stops := p.2.Stops ++ [s] }) else p

/-- Branch of the start dispatch: opening defs sets the inDefs flag. -/
def iconCursor.openDefs (c : iconCursor) : iconCursor :=
  { c with inDefs := true }

/-- Branch of the start dispatch: a group start inside defs appends a "g"
marker to the accumulator. -/
def iconCursor.openGroup (c : iconCursor) (attrs : List (String × String)) : iconCursor :=
  if c.inDefs then
    { c with currentDef := c.currentDef ++ [⟨lookupAttr attrs "id", "g"⟩] }
  else c

/-- Branch of the start dispatch: a title opens a new capture entry. -/
def iconCursor.openTitle (c : iconCursor) : iconCursor :=
  { c with inTitleText := true,
           icon := { c.icon with Titles := c.icon.Titles ++ [""] } }

/-- Branch of the start dispatch: a description opens a new capture entry. -/
def iconCursor.openDesc (c : iconCursor) : iconCursor :=
  { c with inDescText := true,
           icon := { c.icon with Descriptions := c.icon.Descriptions ++ [""] } }

/-- Branch of the start dispatch: a gradient element starts populating a
fresh gradient registered under its identifier. -/
def iconCursor.openGradient (c : iconCursor) (attrs : List (String × String)) : iconCursor :=
  { c with inGrad := true, currentGradId := lookupAttr attrs "id",
           icon := { c.icon with
             grads := mapInsert c.icon.grads (lookupAttr attrs "id") defaultGradient } }

/-- Branch of the start dispatch: a stop appends a color stop to the
gradient being populated. -/
def iconCursor.addGradStop (c : iconCursor) : iconCursor :=
  if c.inGrad then
    { c with icon := { c.icon with
        grads := appendStop c.icon.grads c.currentGradId ⟨0, ⟨0, 0, 0, 255⟩, 1⟩ } }
  else c

/-- Branch of the start dispatch: a shape element is accumulated into the
current definition while inside defs, and otherwise emitted onto the
display list with the current style snapshot. -/
def iconCursor.emitShape (c : iconCursor) (name : String)
    (attrs : List (String × String)) : iconCursor :=
  if c.inDefs then
    { c with currentDef := c.currentDef ++ [⟨lookupAttr attrs "id", name⟩] }
  else
    { c with icon := { c.icon with
        SVGPaths := c.icon.SVGPaths ++
          [⟨name, attrs, c.styleStack.getLast?.getD DefaultStyle⟩] } }

/-- Modelled from the spec: readStartElement dispatches on the element's
local name — definitions section, structural group, metadata captures,
gradient elements, shape elements — and treats an unrecognized element per
the error mode: fatal only in strict mode. The style stack is never
touched here; pushStyle has already pushed the frame. -/
def iconCursor.readStartElement (c : iconCursor) (name : String)
    (attrs : List (String × String)) : iconCursor × Option Err :=
  if name = "svg" then (c, none)
  else if name = "defs" then (c.openDefs, none)
  else if name = "g" then (c.openGroup attrs, none)
  else if name = "use" then (c, none)
  else if name = "title" then (c.openTitle, none)
  else if name = "desc" then (c.openDesc, none)
  else if name = "linearGradient" ∨ name = "radialGradient" then
    (c.openGradient attrs, none)
  else if name = "stop" then (c.addGradStop, none)
  else if shapeElements.contains name then (c.emitShape name attrs, none)
  else
    match c.errorMode with
    | ErrorMode.StrictErrorMode => (c, some (Err.unrecognizedElement name))
    | _ => (c, none)

/-- Embedding of the xml.EndElement arm of the loop in svgicon.go: pop the
style stack (styleStack[:len-1]), then dispatch on the name — append the
"endg" marker while inside defs, clear the text-capture flags, commit the
accumulated definition keyed by its first entry's ID and clear the
accumulator and the inDefs flag on closing defs, clear inGrad on closing a
gradient element. -/
def iconCursor.readEndElement (c : iconCursor) (name : String) : iconCursor :=
  let c1 := { c with styleStack := c.styleStack.dropLast }
  if name = "g" then
    if c1.inDefs then { c1 with currentDef := c1.currentDef ++ [⟨"", "endg"⟩] }
    else c1
  else if name = "title" then { c1 with inTitleText := false }
  else if name = "desc" then { c1 with inDescText := false }
  else if name = "defs" then
    match c1.currentDef with
    | [] => { c1 with inDefs := false }
    | d0 :: _ =>
        { c1 with
          icon := { c1.icon with defs := mapInsert c1.icon.defs d0.ID c1.currentDef },
          currentDef := [], inDefs := false }
  else if name = "radialGradient" ∨ name = "linearGradient" then
    { c1 with inGrad := false }
  else c1

/-- Replace the last entry of a text list by itself with s appended, as
Titles[len-1] += s does. -/
def appendToLast (l : List String) (s : String) : List String :=
  l.dropLast ++ [(l.getLast?.getD "") ++ s]

/-- Embedding of the xml.CharData arm: character data extends the last
opened title entry while capturing titles, and the last opened description
entry while capturing descriptions. -/
def iconCursor.readCharData (c : iconCursor) (s : String) : iconCursor :=
  let c1 :=
    if c.inTitleText then
      { c with icon := { c.icon with Titles := appendToLast c.icon.Titles s } }
    else c
  if c1.inDescText then
    { c1 with icon := { c1.icon with
        Descriptions := appendToLast c1.icon.Descriptions s } }
  else c1

/-- One iteration of the token loop on an actual token: a start element
pushes its style frame and dispatches (either step may surface an error,
which the loop returns at once); an end element pops and dispatches; char
data feeds the text captures. -/
def stepToken (c : iconCursor) (t : Token) : iconCursor × Option Err :=
  match t with
  | Token.startElement name attrs =>
      match c.pushStyle attrs with
      | (c1, some e) => (c1, some e)
      | (c1, none) => c1.readStartElement name attrs
  | Token.endElement name => (c.readEndElement name, none)
  | Token.charData s => (c.readCharData s, none)

/-- Embedding of the for-loop of ReadIconStream over the decoder outcomes:
a non-EOF stream error returns the state so far with that error, EOF (or
exhaustion) breaks with no error, and a handler error aborts likewise. -/
def processTokens : List TokenResult → iconCursor → iconCursor × Option Err
  | [], c => (c, none)
  | TokenResult.eof :: _, c => (c, none)
  | TokenResult.err e :: _, c => (c, some e)
  | TokenResult.tok t :: rest, c =>
      match stepToken c t with
      | (c1, some e) => (c1, some e)
      | (c1, none) => processTokens rest c1

/-- The icon ReadIconStream allocates before the loop: empty maps and the
identity transform. -/
def initialIcon : SvgIcon :=
  ⟨⟨0, 0, 0, 0⟩, [], [], Identity, [], [], []⟩

/-- The cursor ReadIconStream starts from: the style stack holding only the
default style, the fresh icon, and the caller's error mode. -/
def initialCursor (errMode : ErrorMode) : iconCursor :=
  ⟨[DefaultStyle], initialIcon, errMode, false, [], false, false, false, ""⟩

/-- Embedding of ReadIconStream: run the token loop from the initial cursor
and return the (always allocated, hence non-nil) icon with the error
outcome; the Option on the icon embeds the Go pointer. -/
def ReadIconStream (ts : List TokenResult) (errMode : ErrorMode) :
    Option SvgIcon × Option Err :=
  let r := processTokens ts (initialCursor errMode)
  (some r.1.icon, r.2)

/-- Embedding of ReadIcon: os.Open of the named file is embedded by its
outcome — the token stream of the opened file, or the open error, in which
case ReadIcon returns nil and that error without parsing. -/
def ReadIcon (openResult : Except Err (List TokenResult)) (errMode : ErrorMode) :
    Option SvgIcon × Option Err :=
  match openResult with
  | Except.error errf => (none, some errf)
  | Except.ok stream => ReadIconStream stream errMode

/-- Nesting depth check for a start/end token stream: threading the current
depth, refusing an end tag at depth zero (the xml decoder rejects
unmatched end tags at the Token() call itself), and returning the final
depth. -/
def nestDepth : List Token → Nat → Option Nat
  | [], d => some d
  | Token.startElement _ _ :: rest, d => nestDepth rest (d + 1)
  | Token.endElement _ :: rest, d =>
      if d = 0 then none else nestDepth rest (d - 1)
  | Token.charData _ :: rest, d => nestDepth rest d

/-! ## Raster backend (the svgraster wrapper around rasterx) -/

/-- Model of the external rasterx.Filler state (out of scope for the core;
only its identity matters to the claims). -/
structure RxFiller where
  state : Nat
deriving DecidableEq, Repr

/-- Model of the external rasterx.Dasher, which embeds a Filler. -/
structure RxDasher where
  Filler : RxFiller
  state : Nat
deriving DecidableEq, Repr

/-- Embedding of svgraster.Driver: it wraps one Dasher. -/
structure Driver where
  dasher : RxDasher
deriving DecidableEq, Repr

/-- Embedding of the filler handle: it wraps the Dasher's embedded Filler. -/
structure filler where
  Filler : RxFiller
deriving DecidableEq, Repr

/-- Embedding of the stroker handle: it wraps the whole Dasher. -/
structure stroker where
  Dasher : RxDasher
deriving DecidableEq, Repr

/-- Embedding of Driver.SetupDrawers: both results start as nil interface
values; the filler is set only when willFill is true and the stroker only
when willStroke is true. -/
def Driver.SetupDrawers (rd : Driver) (willFill willStroke : Bool) :
    Option filler × Option stroker :=
  let f : Option filler := if willFill then some ⟨rd.dasher.Filler⟩ else none
  let s : Option stroker := if willStroke then some ⟨rd.dasher⟩ else none
  (f, s)

/-- Embedding of rasterx.Gradient, the record toRasterxGradient builds:
five direction points, the stops, bounds, matrix, spread, units and the
radial flag. -/
structure RxGradient where
  P0 : ℚ
  P1 : ℚ
  P2 : ℚ
  P3 : ℚ
  P4 : ℚ
  Stops : List GradStop
  Bounds : Rect
  Matrix : Matrix2D
  Spread : SpreadMethod
  Units : GradientUnits
  IsRadial : Bool
deriving DecidableEq, Repr

/-- Embedding of toRasterxGradient: a Linear direction fills the first four
points (the fifth stays at its zero value); a Radial direction fills all
five and drops the sixth (fr is ignored by rasterx); stops, bounds, matrix,
spread and units are copied over. -/
def toRasterxGradient (grad : Gradient) : RxGradient :=
  match grad.Direction with
  | Direction.Linear d0 d1 d2 d3 =>
      ⟨d0, d1, d2, d3, 0, grad.Stops, grad.Bounds, grad.Matrix, grad.Spread,
       grad.Units, false⟩
  | Direction.Radial d0 d1 d2 d3 d4 _d5 =>
      ⟨d0, d1, d2, d3, d4, grad.Stops, grad.Bounds, grad.Matrix, grad.Spread,
       grad.Units, true⟩

/-- The argument delivered to scanner.SetColor: either a plain color with
its opacity (rasterx.ApplyOpacity), or the color function of a rasterx
gradient with its opacity. -/
inductive SetColorArg where
  | colorArg (c : PlainColor) (opacity : ℚ)
  | colorFuncArg (g : RxGradient) (opacity : ℚ)
deriving DecidableEq, Repr

/-- Embedding of setColorFromPattern: the scanner is embedded by its
accumulated path extent (scanner.GetPathExtent) on the input side and by
the SetColor argument it receives on the output side. A plain color is
applied directly with the opacity; a gradient in ObjectBoundingBox mode
first has its bounds recomputed from the extent (corners divided by 64,
sides as the difference of the divided corners) and is then converted and
handed over as a color function. -/
def setColorFromPattern (color : Pattern) (opacity : ℚ)
    (pathExtent : Rectangle26_6) : SetColorArg :=
  match color with
  | Pattern.plain c => SetColorArg.colorArg c opacity
  | Pattern.gradient g =>
      let g' :=
        if g.Units = GradientUnits.ObjectBoundingBox then
          { g with Bounds :=
              ⟨(pathExtent.Min.X : ℚ) / 64, (pathExtent.Min.Y : ℚ) / 64,
               (pathExtent.Max.X : ℚ) / 64 - (pathExtent.Min.X : ℚ) / 64,
               (pathExtent.Max.Y : ℚ) / 64 - (pathExtent.Min.Y : ℚ) / 64⟩ }
        else g
      SetColorArg.colorFuncArg (toRasterxGradient g') opacity

/-! ## Concrete inputs used by the witnesses -/

/-- A cursor that has just reached the end of a defs section holding one
accumulated entry. -/
def defsCursorExample : iconCursor :=
  ⟨[DefaultStyle], initialIcon, ErrorMode.IgnoreErrorMode, true,
   [⟨"d1", "rect"⟩], false, false, false, ""⟩

/-- A bounding-box-relative linear gradient. -/
def gExample : Gradient :=
  ⟨Direction.Linear 0 0 1 0, [], ⟨0, 0, 1, 1⟩, Identity,
   SpreadMethod.PadSpread, GradientUnits.ObjectBoundingBox⟩

/-- The fixed-point extent of the rectangle from (10,10) to (20,30). -/
def extExample : Rectangle26_6 := ⟨⟨640, 640⟩, ⟨1280, 1920⟩⟩

/-! ## Helper lemmas on the parser state -/

/-- pushStyle appends exactly the overlaid child frame to the stack, in
every branch (including the error-reporting ones). -/
theorem pushStyle_styleStack (c : iconCursor) (attrs : List (String × String)) :
    ((c.pushStyle attrs).1).styleStack
      = c.styleStack ++ [(c.styleStack.getLast?.getD DefaultStyle).overlay attrs] := by
  unfold iconCursor.pushStyle
  cases styleParseFailure attrs <;> cases c.errorMode <;> rfl

/-- readStartElement never touches the style stack. -/
theorem readStartElement_styleStack (c : iconCursor) (name : String)
    (attrs : List (String × String)) :
    ((c.readStartElement name attrs).1).styleStack = c.styleStack := by
  have hg : (c.openGroup attrs).styleStack = c.styleStack := by
    unfold iconCursor.openGroup; split_ifs <;> rfl
  have hs : (c.addGradStop).styleStack = c.styleStack := by
    unfold iconCursor.addGradStop; split_ifs <;> rfl
  have he : (c.emitShape name attrs).styleStack = c.styleStack := by
    unfold iconCursor.emitShape; split_ifs <;> rfl
  unfold iconCursor.readStartElement
  split_ifs <;>
    first
      | rfl
      | exact hg
      | exact hs
      | exact he
      | (cases h : c.errorMode <;> rfl)

/-- readEndElement pops exactly the top frame, in every branch. -/
theorem readEndElement_styleStack (c : iconCursor) (name : String) :
    (c.readEndElement name).styleStack = c.styleStack.dropLast := by
  obtain ⟨ss, ic, em, idf, cdef, igr, itt, idt, gid⟩ := c
  unfold iconCursor.readEndElement
  dsimp only
  cases cdef <;> split_ifs <;> rfl

/-- readCharData never touches the style stack. -/
theorem readCharData_styleStack (c : iconCursor) (s : String) :
    (c.readCharData s).styleStack = c.styleStack := by
  obtain ⟨ss, ic, em, idf, cdef, igr, itt, idt, gid⟩ := c
  cases itt <;> cases idt <;> rfl

/-- A start-element step grows the style stack by exactly one frame,
whether or not the dispatch reports an error. -/
theorem stepToken_start_length (c : iconCursor) (name : String)
    (attrs : List (String × String)) :
    ((stepToken c (Token.startElement name attrs)).1).styleStack.length
      = c.styleStack.length + 1 := by
  have hpush : ((c.pushStyle attrs).1).styleStack.length = c.styleStack.length + 1 := by
    rw [pushStyle_styleStack]; simp
  unfold stepToken
  dsimp only
  rcases h : c.pushStyle attrs with ⟨c1, e⟩
  rw [h] at hpush
  dsimp only at hpush
  cases e with
  | some e0 => exact hpush
  | none =>
      dsimp only
      rw [readStartElement_styleStack]
      exact hpush

/-- The length form of the pop performed by an end-element step. -/
theorem stepToken_end_length (c : iconCursor) (name : String) :
    ((stepToken c (Token.endElement name)).1).styleStack.length
      = c.styleStack.length - 1 := by
  show (c.readEndElement name).styleStack.length = c.styleStack.length - 1
  rw [readEndElement_styleStack, List.length_dropLast]

/-- The style-stack invariant of the token loop: processing a start/end
token stream whose nesting check threads depth d to depth k, from a cursor
whose stack is at least d deep, without surfacing an error, moves the
stack length by exactly k - d. -/
theorem processTokens_depth :
    ∀ (us : List Token) (d k : Nat) (c : iconCursor),
      nestDepth us d = some k → d ≤ c.styleStack.length →
      (processTokens (us.map TokenResult.tok) c).2 = none →
      ((processTokens (us.map TokenResult.tok) c).1).styleStack.length + d
        = c.styleStack.length + k := by
  intro us
  induction us with
  | nil =>
      intro d k c h _ _
      simp only [nestDepth, Option.some.injEq] at h
      simp only [List.map_nil, processTokens]
      omega
  | cons t rest ih =>
      intro d k c h hd herr
      cases t with
      | startElement name attrs =>
          simp only [nestDepth] at h
          simp only [List.map_cons, processTokens] at herr ⊢
          have hlen := stepToken_start_length c name attrs
          rcases hst : stepToken c (Token.startElement name attrs) with ⟨c1, e⟩
          rw [hst] at hlen herr
          dsimp only at hlen
          cases e with
          | some e0 => dsimp only at herr; exact absurd herr (by simp)
          | none =>
              dsimp only at herr ⊢
              have := ih (d + 1) k c1 h (by omega) herr
              omega
      | endElement name =>
          simp only [nestDepth] at h
          rcases Nat.eq_zero_or_pos d with hd0 | hd0
          · rw [hd0] at h; simp at h
          · rw [if_neg (by omega)] at h
            simp only [List.map_cons, processTokens, stepToken] at herr ⊢
            have hlen : (c.readEndElement name).styleStack.length
                = c.styleStack.length - 1 := by
              rw [readEndElement_styleStack, List.length_dropLast]
            have := ih (d - 1) k (c.readEndElement name) h (by omega) herr
            omega
      | charData s =>
          simp only [nestDepth] at h
          simp only [List.map_cons, processTokens, stepToken] at herr ⊢
          have hlen : (c.readCharData s).styleStack.length = c.styleStack.length := by
            rw [readCharData_styleStack]
          have := ih d k (c.readCharData s) h (by omega) herr
          omega

/-- Splitting the loop at a prefix of actual tokens that was processed
without error: the loop continues on the rest from the state the prefix
reached. -/
theorem processTokens_append_toks :
    ∀ (us : List Token) (c : iconCursor) (vs : List TokenResult),
      (processTokens (us.map TokenResult.tok) c).2 = none →
      processTokens (us.map TokenResult.tok ++ vs) c
        = processTokens vs ((processTokens (us.map TokenResult.tok) c).1) := by
  intro us
  induction us with
  | nil => intro c vs _; simp [processTokens]
  | cons t rest ih =>
      intro c vs herr
      simp only [List.map_cons, List.cons_append, processTokens] at herr ⊢
      rcases hst : stepToken c t with ⟨c1, e⟩
      rw [hst] at herr
      cases e with
      | some e0 => dsimp only at herr; exact absurd herr (by simp)
      | none =>
          dsimp only at herr ⊢
          exact ih c1 vs herr

/-! ## Claim theorems -/

/-- Claim C1 (code bug evidence): evaluating Path.ToSVGPath on a path
holding a single CubicTo operation yields a chunk beginning with two C
letters — the source computes "C" + Sprintf("C%4.3f,...") — instead of
the single letter the serialization contract prescribes. -/
theorem toSVGPath_cubicTo_doubled_letter :
    Path.ToSVGPath [Operation.OpCubicTo ⟨0, 0⟩ ⟨0, 0⟩ ⟨64, 64⟩]
      = "CC0.000,0.000,0.000,0.000,1.000,1.000" := by decide

/-- Claim C2: every start-element step pushes exactly one style frame
(regardless of recognition or error), every end-element step pops exactly
one, the loop moves the stack length by exactly the threaded nesting
depth, and a fully balanced start/end token stream processed without error
returns the stack to its pre-parse depth. -/
theorem styleStack_depth_invariant :
    (∀ (c : iconCursor) (name : String) (attrs : List (String × String)),
        ((stepToken c (Token.startElement name attrs)).1).styleStack.length
          = c.styleStack.length + 1)
  ∧ (∀ (c : iconCursor) (name : String), 0 < c.styleStack.length →
        ((stepToken c (Token.endElement name)).1).styleStack.length
          = c.styleStack.length - 1)
  ∧ (∀ (us : List Token) (c : iconCursor) (k : Nat),
        nestDepth us 0 = some k →
        (processTokens (us.map TokenResult.tok) c).2 = none →
        ((processTokens (us.map TokenResult.tok) c).1).styleStack.length
          = c.styleStack.length + k)
  ∧ (∀ (us : List Token) (mode : ErrorMode),
        nestDepth us 0 = some 0 →
        (processTokens (us.map TokenResult.tok) (initialCursor mode)).2 = none →
        ((processTokens (us.map TokenResult.tok) (initialCursor mode)).1).styleStack.length
          = (initialCursor mode).styleStack.length) := by
  refine ⟨stepToken_start_length, ?_, ?_, ?_⟩
  · intro c name _
    exact stepToken_end_length c name
  · intro us c k h herr
    have := processTokens_depth us 0 k c h (Nat.zero_le _) herr
    omega
  · intro us mode h herr
    have := processTokens_depth us 0 0 (initialCursor mode) h (Nat.zero_le _) herr
    omega

/-- Claim C2 witness: an end-element step on the initial cursor pops its
single frame, and the balanced stream consisting of one group element
returns the stack to the initial depth. -/
theorem styleStack_depth_invariant_witness :
    ((stepToken (initialCursor ErrorMode.IgnoreErrorMode) (Token.endElement "g")).1).styleStack.length
        = (initialCursor ErrorMode.IgnoreErrorMode).styleStack.length - 1
  ∧ ((processTokens ([Token.startElement "g" [], Token.endElement "g"].map TokenResult.tok)
        (initialCursor ErrorMode.IgnoreErrorMode)).1).styleStack.length
        = (initialCursor ErrorMode.IgnoreErrorMode).styleStack.length :=
  ⟨styleStack_depth_invariant.2.1 (initialCursor ErrorMode.IgnoreErrorMode) "g" (by decide),
   styleStack_depth_invariant.2.2.2 [Token.startElement "g" [], Token.endElement "g"]
     ErrorMode.IgnoreErrorMode (by decide) (by decide)⟩

/-- Claim C3: a non-EOF stream error aborts the loop at once in every
error mode, returning the state reached so far with that error; EOF breaks
the loop with no error; lifted to ReadIconStream, an error after an
error-free prefix of tokens returns the document populated by that prefix
together with the stream error, and an EOF after such a prefix returns
that document with no error. -/
theorem readIconStream_token_error_aborts :
    (∀ (e : Err) (rest : List TokenResult) (c : iconCursor),
        processTokens (TokenResult.err e :: rest) c = (c, some e))
  ∧ (∀ (rest : List TokenResult) (c : iconCursor),
        processTokens (TokenResult.eof :: rest) c = (c, none))
  ∧ (∀ (us : List Token) (mode : ErrorMode) (e : Err) (rest : List TokenResult),
        (processTokens (us.map TokenResult.tok) (initialCursor mode)).2 = none →
        ReadIconStream (us.map TokenResult.tok ++ TokenResult.err e :: rest) mode
          = (some ((processTokens (us.map TokenResult.tok) (initialCursor mode)).1).icon,
             some e))
  ∧ (∀ (us : List Token) (mode : ErrorMode) (rest : List TokenResult),
        (processTokens (us.map TokenResult.tok) (initialCursor mode)).2 = none →
        ReadIconStream (us.map TokenResult.tok ++ TokenResult.eof :: rest) mode
          = (some ((processTokens (us.map TokenResult.tok) (initialCursor mode)).1).icon,
             none)) := by
  refine ⟨fun e rest c => rfl, fun rest c => rfl, ?_, ?_⟩
  · intro us mode e rest herr
    unfold ReadIconStream
    rw [processTokens_append_toks us (initialCursor mode) (TokenResult.err e :: rest) herr]
    rfl
  · intro us mode rest herr
    unfold ReadIconStream
    rw [processTokens_append_toks us (initialCursor mode) (TokenResult.eof :: rest) herr]
    rfl

/-- Claim C3 witness: a stream error and an EOF right after an empty
(error-free) prefix. -/
theorem readIconStream_token_error_aborts_witness :
    ReadIconStream (([] : List Token).map TokenResult.tok
        ++ TokenResult.err (Err.tokenErr "bad stream") :: []) ErrorMode.WarnErrorMode
      = (some ((processTokens (([] : List Token).map TokenResult.tok)
            (initialCursor ErrorMode.WarnErrorMode)).1).icon,
         some (Err.tokenErr "bad stream"))
  ∧ ReadIconStream (([] : List Token).map TokenResult.tok ++ TokenResult.eof :: [])
        ErrorMode.WarnErrorMode
      = (some ((processTokens (([] : List Token).map TokenResult.tok)
            (initialCursor ErrorMode.WarnErrorMode)).1).icon, none) :=
  ⟨readIconStream_token_error_aborts.2.2.1 [] ErrorMode.WarnErrorMode
      (Err.tokenErr "bad stream") [] rfl,
   readIconStream_token_error_aborts.2.2.2 [] ErrorMode.WarnErrorMode [] rfl⟩

/-- Claim C4 counterexample: when the named file cannot be opened, ReadIcon
returns a nil document (together with the open error), so the claim that
every entry point returns a non-nil document even in that case is false. -/
theorem readIcon_open_failure_nil_doc :
    (ReadIcon (Except.error (Err.ioErr "open icon.svg: no such file or directory"))
        ErrorMode.IgnoreErrorMode).1 = none := rfl

/-- Claim C4 (amended): ReadIconStream always returns a non-nil document
with its error value, in every mode; ReadIcon does so whenever the file
opens, but on an open failure it returns nil together with the open
error. -/
theorem entry_points_doc_allocation :
    (∀ (ts : List TokenResult) (mode : ErrorMode),
        ((ReadIconStream ts mode).1).isSome = true)
  ∧ (∀ (ts : List TokenResult) (mode : ErrorMode),
        ((ReadIcon (Except.ok ts) mode).1).isSome = true)
  ∧ (∀ (e : Err) (mode : ErrorMode),
        ReadIcon (Except.error e) mode = (none, some e)) :=
  ⟨fun _ _ => rfl, fun _ _ => rfl, fun _ _ => rfl⟩

/-- Claim C5: on an end-tag for defs, a non-empty accumulator is committed
into the definitions mapping keyed by its first entry's identifier and
then cleared, and the inside-definitions flag is cleared; an empty
accumulator leaves the mapping unchanged and only clears the flag. -/
theorem defs_end_commit :
    ∀ c : iconCursor,
      (c.currentDef = [] →
          (c.readEndElement "defs").icon.defs = c.icon.defs
        ∧ (c.readEndElement "defs").currentDef = c.currentDef
        ∧ (c.readEndElement "defs").inDefs = false)
    ∧ (∀ (d0 : definition) (tl : List definition), c.currentDef = d0 :: tl →
          (c.readEndElement "defs").icon.defs
            = mapInsert c.icon.defs d0.ID c.currentDef
        ∧ (c.readEndElement "defs").currentDef = []
        ∧ (c.readEndElement "defs").inDefs = false) := by
  intro c
  obtain ⟨ss, ic, em, idf, cdef, igr, itt, idt, gid⟩ := c
  constructor
  · intro h
    dsimp only at h
    subst h
    exact ⟨rfl, rfl, rfl⟩
  · intro d0 tl h
    dsimp only at h
    subst h
    exact ⟨rfl, rfl, rfl⟩

/-- Claim C5 witness: the commit at a concrete cursor holding one
accumulated definition entry. -/
theorem defs_end_commit_witness :
    (defsCursorExample.readEndElement "defs").icon.defs
        = mapInsert defsCursorExample.icon.defs "d1" defsCursorExample.currentDef
    ∧ (defsCursorExample.readEndElement "defs").currentDef = []
    ∧ (defsCursorExample.readEndElement "defs").inDefs = false :=
  (defs_end_commit defsCursorExample).2 ⟨"d1", "rect"⟩ [] rfl

/-- Claim C6: replaying an OpMoveTo issues exactly Stop(false) followed by
Start at the transformed point — the implicit close of any open subpath
without a closing segment — and replaying OpClose issues exactly
Stop(true). -/
theorem moveTo_close_drawer_calls :
    ∀ (M : Matrix2D) (p : Point26_6),
      Operation.drawTo (Operation.OpMoveTo p) M
          = [DrawOp.Stop false, DrawOp.Start (M.trMove p)]
    ∧ Operation.drawTo Operation.OpClose M = [DrawOp.Stop true] :=
  fun _ _ => ⟨rfl, rfl⟩

/-- Claim C7: SetupDrawers returns a non-nil filler exactly when willFill
is set and a non-nil stroker exactly when willStroke is set. -/
theorem setupDrawers_capabilities :
    ∀ (rd : Driver) (willFill willStroke : Bool),
      ((rd.SetupDrawers willFill willStroke).1.isSome = willFill)
    ∧ ((rd.SetupDrawers willFill willStroke).2.isSome = willStroke) := by
  intro rd wf ws
  cases wf <;> cases ws <;> exact ⟨rfl, rfl⟩

/-- Claim C8: at draw time a bounding-box-relative gradient has its bounds
recomputed from the accumulated path extent — origin at the minimum corner
divided by 64, sides the extent's side lengths divided by 64 — before the
color function is produced; a user-space gradient keeps its bounds; a
plain color is applied directly with the opacity. -/
theorem setColorFromPattern_resolution :
    ∀ (g : Gradient) (opacity : ℚ) (ext : Rectangle26_6),
      (g.Units = GradientUnits.ObjectBoundingBox →
        setColorFromPattern (Pattern.gradient g) opacity ext
          = SetColorArg.colorFuncArg
              (toRasterxGradient { g with Bounds :=
                ⟨(ext.Min.X : ℚ) / 64, (ext.Min.Y : ℚ) / 64,
                 ((ext.Max.X : ℚ) - (ext.Min.X : ℚ)) / 64,
                 ((ext.Max.Y : ℚ) - (ext.Min.Y : ℚ)) / 64⟩ }) opacity)
    ∧ (g.Units = GradientUnits.UserSpaceOnUse →
        setColorFromPattern (Pattern.gradient g) opacity ext
          = SetColorArg.colorFuncArg (toRasterxGradient g) opacity)
    ∧ (∀ pc : PlainColor,
        setColorFromPattern (Pattern.plain pc) opacity ext
          = SetColorArg.colorArg pc opacity) := by
  intro g op ext
  refine ⟨fun h => ?_, fun h => ?_, fun pc => rfl⟩
  · dsimp only [setColorFromPattern]
    rw [if_pos h]
    have hW : (ext.Max.X : ℚ) / 64 - (ext.Min.X : ℚ) / 64
        = ((ext.Max.X : ℚ) - (ext.Min.X : ℚ)) / 64 := by ring
    have hH : (ext.Max.Y : ℚ) / 64 - (ext.Min.Y : ℚ) / 64
        = ((ext.Max.Y : ℚ) - (ext.Min.Y : ℚ)) / 64 := by ring
    rw [hW, hH]
  · dsimp only [setColorFromPattern]
    rw [if_neg (by simp [h])]

/-- Claim C8 witness: the gradient over the extent from (10,10) to (20,30)
resolves its bounds to that box. -/
theorem setColorFromPattern_resolution_witness :
    gExample.Units = GradientUnits.ObjectBoundingBox
  ∧ setColorFromPattern (Pattern.gradient gExample) 1 extExample
      = SetColorArg.colorFuncArg
          (toRasterxGradient { gExample with Bounds :=
            ⟨(extExample.Min.X : ℚ) / 64, (extExample.Min.Y : ℚ) / 64,
             ((extExample.Max.X : ℚ) - (extExample.Min.X : ℚ)) / 64,
             ((extExample.Max.Y : ℚ) - (extExample.Min.Y : ℚ)) / 64⟩ }) 1 :=
  ⟨rfl, (setColorFromPattern_resolution gExample 1 extExample).1 rfl⟩

/-- Claim C9: parsing is deterministic — identical token streams under the
same error mode produce structurally equal documents and equal error
outcomes. -/
theorem readIconStream_deterministic :
    ∀ (ts1 ts2 : List TokenResult) (m1 m2 : ErrorMode),
      ts1 = ts2 → m1 = m2 → ReadIconStream ts1 m1 = ReadIconStream ts2 m2 := by
  intro ts1 ts2 m1 m2 h1 h2
  rw [h1, h2]

/-- Claim C9 witness: two identical invocations agree. -/
theorem readIconStream_deterministic_witness :
    ReadIconStream [TokenResult.eof] ErrorMode.WarnErrorMode
      = ReadIconStream [TokenResult.eof] ErrorMode.WarnErrorMode :=
  readIconStream_deterministic [TokenResult.eof] [TokenResult.eof]
    ErrorMode.WarnErrorMode ErrorMode.WarnErrorMode rfl rfl

/-- Claim C10: Path is an append-only accumulator of the drawer
primitives: Stop(false) is the identity, each producing call appends
exactly its corresponding operation with the given points while keeping
the prefix unchanged, and Clear resets the sequence to empty. -/
theorem path_append_only :
    ∀ (p : Path) (a b c d : Point26_6),
      Path.Stop p false = p
    ∧ Path.Start p a = p ++ [Operation.OpMoveTo a]
    ∧ Path.Line p b = p ++ [Operation.OpLineTo b]
    ∧ Path.QuadBezier p b c = p ++ [Operation.OpQuadTo b c]
    ∧ Path.CubeBezier p b c d = p ++ [Operation.OpCubicTo b c d]
    ∧ Path.Stop p true = p ++ [Operation.OpClose]
    ∧ Path.Clear p = [] :=
  fun _ _ _ _ _ => ⟨rfl, rfl, rfl, rfl, rfl, rfl, rfl⟩

end Oksvg
